import Mathlib

/-!
Shallow embedding of the RanOS LED-driver pipeline (crates `ranos_ds`,
`ranos_generator`, `ranos_animation`, `ranos_filter`, `ranos_display`,
`ranos_draw`) and proofs about its specification claims.

Conventions of the embedding:
* `u8` channel values are `Nat` (kept in range by the clamping the source
  performs);
* `std::time::Duration` is `Nat` (nanoseconds); `checked_sub` is modelled by a
  comparison, and the panicking `Duration` subtraction/indexing operations are
  modelled with `Option` (`none` = panic);
* `f32`/`f64` arithmetic is modelled exactly over `ℚ`; all concrete inputs used
  in counterexamples/witnesses are exactly representable in the source's float
  types;
* the `rand`-driven `ColorOrder::Random`/`RandomBright` variants are not
  modelled; every claim under study uses `ColorOrder::Ordered`, whose palette we
  embed as a `List RGB`.
-/

namespace RanOS

/-- Truncation toward zero of a rational, as Rust casts floats to integers. -/
def ratTrunc (q : ℚ) : ℤ :=
  if q < 0 then ⌈q⌉ else ⌊q⌋

/-- Rust float `%`: remainder with the sign of the dividend. -/
def fRem (a b : ℚ) : ℚ :=
  a - b * ratTrunc (a / b)

/-- Rust saturating float-to-`u8` cast (`as u8`). -/
def ratToU8 (q : ℚ) : ℕ :=
  (min 255 (max 0 (ratTrunc q))).toNat

/-- Model of `ranos_ds::rgb::RGB`: three `u8` channel values. -/
structure RGB where
  red : ℕ
  green : ℕ
  blue : ℕ
deriving DecidableEq, Repr

instance : Inhabited RGB := ⟨⟨0, 0, 0⟩⟩

/-- Model of `RGB::new()` / `Default`: black. -/
def RGB.new : RGB := ⟨0, 0, 0⟩

/-- Model of `RGB::scale`: clamp the scalar to `[0, 1]`, multiply each channel,
clamp to `[0, 255]`, truncate (`as u8`). -/
def RGB.scale (c : RGB) (scalar : ℚ) : RGB :=
  let s := max (min scalar 1) 0
  ⟨ratToU8 (min (max ((c.red : ℚ) * s) 0) 255),
   ratToU8 (min (max ((c.green : ℚ) * s) 0) 255),
   ratToU8 (min (max ((c.blue : ℚ) * s) 0) 255)⟩

/-- Model of `ranos_ds::rgb::RGBOrder`. -/
inductive RGBOrder
  | rgb | rbg | grb | gbr | brg | bgr
deriving DecidableEq, Repr

/-- Model of `RGB::as_tuple`: the channels in the given order. -/
def RGB.asTuple (c : RGB) (o : RGBOrder) : ℕ × ℕ × ℕ :=
  match o with
  | .rgb => (c.red, c.green, c.blue)
  | .rbg => (c.red, c.blue, c.green)
  | .grb => (c.green, c.red, c.blue)
  | .gbr => (c.green, c.blue, c.red)
  | .brg => (c.blue, c.red, c.green)
  | .bgr => (c.blue, c.green, c.red)

/-- Model of `RGB::from_hsv`, the Wikipedia HSV-to-RGB algorithm as written in the
source (`h` is first reduced mod 360 with float `%`). -/
def RGB.fromHsv (h s v : ℚ) : RGB :=
  let h := fRem h 360
  let c := v * s
  let x := c * (1 - |fRem (h / 60) 2 - 1|)
  let m := v - c
  let rgb :=
    if 0 ≤ h ∧ h < 60 then (c, x, (0 : ℚ))
    else if 60 ≤ h ∧ h < 120 then (x, c, 0)
    else if 120 ≤ h ∧ h < 180 then (0, c, x)
    else if 180 ≤ h ∧ h < 240 then (0, x, c)
    else if 240 ≤ h ∧ h < 300 then (x, 0, c)
    else (c, 0, x)
  ⟨ratToU8 ((rgb.1 + m) * 255), ratToU8 ((rgb.2.1 + m) * 255),
   ratToU8 ((rgb.2.2 + m) * 255)⟩

/-- Model of `ranos_ds::collections::Frame`: a brightness scalar in `[0, 1]` and a
fixed-length buffer of pixels. -/
structure Frame where
  brightness : ℚ
  leds : List RGB
deriving DecidableEq, Repr

/-- Model of `Frame::new`: clamps the brightness and fills the buffer with default
(black) pixels. -/
def Frame.new (brightness : ℚ) (size : ℕ) : Frame :=
  ⟨max (min brightness 1) 0, List.replicate size RGB.new⟩

/-- Model of `Frame::len`. -/
def Frame.len (f : Frame) : ℕ := f.leds.length

/-! ## The APA102C hardware sink (`ranos_draw::pi_draw`), byte-stream level

`write_byte` clocks one byte MSB-first onto the GPIO lines; we model the
encoder at the granularity of the bytes handed to `write_byte`, which is what
the wire-format claims are about. -/

/-- One pixel group of `APA102CPiDraw::write_frame`: the control byte
`0xE0 | brightness` followed by the pixel (scaled by the frame's software
brightness) in `BGR` order. -/
def pixelGroup (mask : ℕ) (brightness : ℚ) (p : RGB) : List ℕ :=
  let c := (p.scale brightness).asTuple .bgr
  [mask, c.1, c.2.1, c.2.2]

/-- Model of `APA102CPiDraw::start_frame`: four zero bytes. -/
def startFrameBytes : List ℕ := [0, 0, 0, 0]

/-- Model of `APA102CPiDraw::end_frame`: `len >> 4` zero bytes. -/
def endFrameBytes (len : ℕ) : List ℕ := List.replicate (len >>> 4) 0

/-- Model of `APA102CPiDraw::write_frame` for one display's frame: start frame, then a
4-byte group per pixel, then the end frame sized by the pixel count. -/
def writeFrameBytes (hwBrightness : ℕ) (f : Frame) : List ℕ :=
  startFrameBytes
    ++ (f.leds.flatMap (pixelGroup (0xE0 ||| hwBrightness) f.brightness))
    ++ endFrameBytes f.leds.length

/-- Model of `APA102CPiDraw::stop`: start frame, then for each of the `len` LEDs the
group `0xE0, 0, 0, 0` (zero-brightness control byte and three zero channel
bytes), then the end frame. -/
def stopBytes (len : ℕ) : List ℕ :=
  startFrameBytes
    ++ ((List.range len).flatMap fun _ => [0xE0, 0, 0, 0])
    ++ endFrameBytes len

/-! ## Generators (`ranos_generator`) -/

/-- Model of `ranos_generator::GeneratorState`. -/
inductive GeneratorState
  | ok | errRetry | errSkip | errFatal
deriving DecidableEq, Repr

/-- Nanoseconds to seconds, the exact value `Duration::as_secs_f32` /
`as_secs_f64` computes (modelling the float result exactly over `ℚ`). -/
def nanosToSecs (n : ℕ) : ℚ := (n : ℚ) / 1000000000

/-- Model of `ranos_generator::cycle::Cycle` with an `Ordered` palette. `ConstVal`
fields are plain fields (the wrapper is only intent-documentation). Durations
are nanoseconds. -/
structure Cycle where
  order : List RGB
  ind : ℕ
  currentColor : RGB
  cyclePeriod : ℕ
  cycleTimeRemaining : ℕ
deriving DecidableEq, Repr

/-- Model of `Cycle::new` with `ColorOrder::Ordered`: `current_color = v[0]` (panic —
`none` — on an empty palette), countdown initialised to the period. -/
def Cycle.new (cyclePeriod : ℕ) (order : List RGB) : Option Cycle :=
  (order.head?).map fun c0 => ⟨order, 0, c0, cyclePeriod, cyclePeriod⟩

/-- Model of `Cycle::render_frame`. If `cycle_time_remaining.checked_sub(dt)` succeeds
the countdown is just decremented and the frame left untouched. Otherwise the
palette index advances (`(ind + 1) % v.len()`, panicking on an empty palette),
every pixel is overwritten with the new color, and the countdown is refilled
with `cycle_period + cycle_time_remaining - dt` — a `Duration` subtraction
that panics (`none`) when `dt` exceeds `cycle_period + cycle_time_remaining`.
Always returns `GeneratorState::Ok` when it returns. -/
def Cycle.renderFrame (c : Cycle) (f : Frame) (dt : ℕ) :
    Option (Cycle × Frame × GeneratorState) :=
  if dt ≤ c.cycleTimeRemaining then
    some ({ c with cycleTimeRemaining := c.cycleTimeRemaining - dt }, f, .ok)
  else
    match (c.order.get? ((c.ind + 1) % c.order.length)) with
    | none => none
    | some color =>
      let f2 := { f with leds := f.leds.map fun _ => color }
      if dt ≤ c.cyclePeriod + c.cycleTimeRemaining then
        some ({ c with
                  ind := (c.ind + 1) % c.order.length
                  currentColor := color
                  cycleTimeRemaining := c.cyclePeriod + c.cycleTimeRemaining - dt },
              f2, .ok)
      else
        none

/-! ## Display (`ranos_display`)

`Display::render_frame` is written against `Box<dyn Generator>`; the
embedding is accordingly parameterised by a generator type `G` and its
`render_frame` implementation `renderG` (returning `none` on a panic).
The `filters` list and `original_runtimes` map are never read by
`render_frame` and are omitted from the model. -/

/-- Model of `ranos_display::Runtime`. -/
inductive Runtime
  | time (remaining : ℕ)
  | trigger
deriving DecidableEq, Repr

/-- Model of `ranos_display::DisplayState`. -/
inductive DisplayState
  | ok | done | err
deriving DecidableEq, Repr

/-- The `Display` fields read or written by `render_frame`. -/
structure Display (G : Type) where
  generators : List (G × Runtime)
  frame : Frame
  looping : Bool
deriving DecidableEq

/-- The body of `Display::render_frame` after the front generator has been
popped, recursing on the rest of the queue (the `ErrRetry` branch re-invokes
`render_frame` after the popped generator has been dropped). Returns the
updated frame and queue together with the `DisplayState`. -/
def renderQueue {G : Type}
    (renderG : G → Frame → ℕ → Option (G × Frame × GeneratorState))
    (looping : Bool) (dt : ℕ) :
    List (G × Runtime) → Frame → Option (Frame × List (G × Runtime) × DisplayState)
  | [], f => some (f, [], .done)
  | (g, rt) :: rest, f =>
    match renderG g f dt with
    | none => none
    | some (g2, f2, res) =>
      match res with
      | .ok =>
        match rt with
        | .time t =>
          if dt ≤ t then
            -- `t.checked_sub(dt)` succeeded: push the generator back at the
            -- front with the decremented runtime.
            some (f2, (g2, .time (t - dt)) :: rest, .ok)
          else
            -- Underflow: the slot is exhausted. If looping, push the popped
            -- pair `(anim, rt)` to the back unchanged. (The remainder-dt
            -- recursion present in the spec is commented out in the source.)
            if looping then some (f2, rest ++ [(g2, .time t)], .ok)
            else some (f2, rest, .ok)
        | .trigger =>
          -- `trigger_next_generator` pops the front of the *remaining* queue
          -- (the rendered generator was already popped and is dropped).
          some (f2, rest.tail, .ok)
      | .errRetry => renderQueue renderG looping dt rest f2
      | .errSkip => some (f2, (g2, rt) :: rest, .ok)
      | .errFatal => some (f2, rest, .err)

/-- Model of `Display::render_frame`: pop the front generator (empty queue returns
`Done`), render, and dispatch on the result. -/
def Display.renderFrame {G : Type}
    (renderG : G → Frame → ℕ → Option (G × Frame × GeneratorState))
    (d : Display G) (dt : ℕ) : Option (Display G × DisplayState) :=
  (renderQueue renderG d.looping dt d.generators d.frame).map
    fun x => ({ d with frame := x.1, generators := x.2.1 }, x.2.2)

/-! ## Animations (`ranos_animation`): Rainbow, Breath -/

/-- Model of `ranos_animation::AnimationState`. -/
inductive AnimationState
  | cont | last | errRetry | errFatal
deriving DecidableEq, Repr

/-- Model of `ranos_animation::rainbow::Rainbow`. `runtime`/`time_remaining` are
`Duration` nanoseconds, the rest mirrors the `f32` fields over `ℚ`
(`dh = 360 / rainbow_length.as_secs_f32()`). -/
structure Rainbow where
  runtime : ℕ
  timeRemaining : ℕ
  hue : ℚ
  sat : ℚ
  val : ℚ
  dh : ℚ
  arc : ℚ
  step : ℕ
deriving DecidableEq, Repr

/-- Model of `Rainbow::new` (hue starts at 0). `dhArg` is `360 / rainbow_length` in
seconds. -/
def Rainbow.new (runtime : ℕ) (dhArg sat val arc : ℚ) (step : ℕ) : Rainbow :=
  ⟨runtime, runtime, 0, sat, val, dhArg, arc, step⟩

/-- The per-pixel stepped phase of `Rainbow::render_frame`:
`floor(i / step) * step / len * 360 * arc` (over `ℚ`; the source uses `f32`,
with an infinite result for `step = 0` that the embedding does not model —
`ℚ` division by zero yields 0). -/
def rainbowPhase (step len : ℕ) (arc : ℚ) (i : ℕ) : ℚ :=
  ((⌊(i : ℚ) / (step : ℚ)⌋ : ℚ) * (step : ℚ)) / (len : ℚ) * 360 * arc

/-- Model of `Rainbow::render_frame`: advance the hue by `dh * dt`, wrap by a *single*
conditional subtraction of 360, repaint every pixel from HSV with its stepped
phase, then count down `time_remaining` (`Continue`, or `Last` on
underflow). -/
def Rainbow.renderFrame (r : Rainbow) (f : Frame) (dt : ℕ) :
    Rainbow × Frame × AnimationState :=
  let hue := r.hue + r.dh * nanosToSecs dt
  let hue := if 360 ≤ hue then hue - 360 else hue
  let len := f.leds.length
  let leds := (List.range len).map fun i =>
    RGB.fromHsv (hue + rainbowPhase r.step len r.arc i) r.sat r.val
  let f2 := { f with leds := leds }
  if dt ≤ r.timeRemaining then
    ({ r with hue := hue, timeRemaining := r.timeRemaining - dt }, f2, .cont)
  else
    ({ r with hue := hue, timeRemaining := 0 }, f2, .last)

/-- Model of `ranos_animation::breath::Breath` with an `Ordered` palette.
`acc = -8 / breath_duration²`, `vel0 = 4 / breath_duration` (seconds). -/
structure AnimBreath where
  runtime : ℕ
  timeRemaining : ℕ
  order : List RGB
  ind : ℕ
  currentColor : RGB
  acc : ℚ
  vel : ℚ
  vel0 : ℚ
  pos : ℚ
deriving DecidableEq, Repr

/-- Model of `Breath::new` with `ColorOrder::Ordered` (panic — `none` — on an empty
palette); `breathSecs` is `breath_duration.as_secs_f32()`. -/
def AnimBreath.new (runtime : ℕ) (breathSecs : ℚ) (order : List RGB) :
    Option AnimBreath :=
  (order.head?).map fun c0 =>
    ⟨runtime, runtime, order, 0, c0,
     -8 / breathSecs ^ 2, 4 / breathSecs, 4 / breathSecs, 0⟩

/-- Model of `Breath::render_frame`: integrate `vel += acc*dt; pos += vel*dt`; when
`pos ≤ 0 ∧ vel < 0` clamp `pos` to 0, restore `vel`, and advance the palette
(panicking on an empty palette); paint every pixel `current_color.scale(pos)`;
then count down `time_remaining`. -/
def AnimBreath.renderFrame (b : AnimBreath) (f : Frame) (dt : ℕ) :
    Option (AnimBreath × Frame × AnimationState) :=
  let vel := b.vel + b.acc * nanosToSecs dt
  let pos := b.pos + vel * nanosToSecs dt
  let next : Option (ℚ × ℚ × ℕ × RGB) :=
    if pos ≤ 0 ∧ vel < 0 then
      (b.order.get? ((b.ind + 1) % b.order.length)).map fun color =>
        (0, b.vel0, (b.ind + 1) % b.order.length, color)
    else
      some (pos, vel, b.ind, b.currentColor)
  next.map fun x =>
    let f2 := { f with leds := f.leds.map fun _ => x.2.2.2.scale x.1 }
    if dt ≤ b.timeRemaining then
      ({ b with vel := x.2.1, pos := x.1, ind := x.2.2.1,
                currentColor := x.2.2.2,
                timeRemaining := b.timeRemaining - dt }, f2, .cont)
    else
      ({ b with vel := x.2.1, pos := x.1, ind := x.2.2.1,
                currentColor := x.2.2.2, timeRemaining := 0 }, f2, .last)

/-- Model of `Breath::reset`: restores `time_remaining`, `ind`, `current_color`
(`v[0]`, panicking on an empty palette) and `vel` — and nothing else;
in particular `pos` is left at its current value. -/
def AnimBreath.reset (b : AnimBreath) : Option AnimBreath :=
  (b.order.head?).map fun c0 =>
    { b with timeRemaining := b.runtime, ind := 0, currentColor := c0,
             vel := b.vel0 }

/-! ## Filters (`ranos_filter`): Breath, Strobe -/

/-- Model of `ranos_filter::FilterState`. -/
inductive FilterState
  | ok | errRetry | errSkip | errFatal
deriving DecidableEq, Repr

/-- Model of `ranos_filter::breath::Breath`: just the envelope state. -/
structure FilterBreath where
  acc : ℚ
  vel : ℚ
  vel0 : ℚ
  pos : ℚ
deriving DecidableEq, Repr

/-- Model of `Breath::new` (filter): `acc = -8 / breath_duration²`,
`vel = vel0 = 4 / breath_duration`, `pos = 0`. -/
def FilterBreath.new (breathSecs : ℚ) : FilterBreath :=
  ⟨-8 / breathSecs ^ 2, 4 / breathSecs, 4 / breathSecs, 0⟩

/-- Model of `Breath::filter_frame`: integrates the envelope exactly like the
generator, but its pixel loop is `led.scale(self.pos);` — `RGB::scale`
takes `&self` and *returns* the scaled copy, so the returned value is
discarded and the frame is left untouched. -/
def FilterBreath.filterFrame (b : FilterBreath) (f : Frame) (dt : ℕ) :
    FilterBreath × Frame × FilterState :=
  let vel := b.vel + b.acc * nanosToSecs dt
  let pos := b.pos + vel * nanosToSecs dt
  if pos ≤ 0 ∧ vel < 0 then
    ({ b with vel := b.vel0, pos := 0 }, f, .ok)
  else
    ({ b with vel := vel, pos := pos }, f, .ok)

/-- Model of `ranos_filter::strobe::Strobe` (`f64` fields over `ℚ`). -/
structure FilterStrobe where
  frequency : ℚ
  period : ℚ
  duty : ℚ
  time : ℚ
deriving DecidableEq, Repr

/-- Model of `Strobe::new`: clamps the duty to `[0, 1]`, `period = 1 / frequency`. -/
def FilterStrobe.new (frequency duty : ℚ) : FilterStrobe :=
  ⟨frequency, 1 / frequency, max (min duty 1) 0, 0⟩

/-- Model of `Strobe::filter_frame`: accumulate `time = (time + dt) % period`,
`r = time * frequency`; the loop body is `led.scale(0.0);` whenever
`r > duty`, whose result `RGB::scale` returns by value — it is discarded, so
the frame is left untouched. -/
def FilterStrobe.filterFrame (s : FilterStrobe) (f : Frame) (dt : ℕ) :
    FilterStrobe × Frame × FilterState :=
  ({ s with time := fRem (s.time + nanosToSecs dt) s.period }, f, .ok)

/-! ## The APA102C sink state and run loop (`ranos_draw::pi_draw`)

The `HashMap` plus `display_ids` bookkeeping of the source reduces to the
ordered list of `(display, has_finished)` pairs the loop iterates; the GPIO
pins and timer carry no claim-relevant state. `run` is driven by the list of
`dt` values the timer would produce (a bounded observation of the `while`
loop) and by the SIGINT-flag oracle `sig`, consulted exactly where the source
checks the flag. -/

/-- Model of `APA102CPiDraw`'s claim-relevant state: the hardware brightness, the
displays in iteration order (with their `has_finished` flags), and `num`, the
total pixel count accumulated at construction. -/
structure PiDraw (G : Type) where
  brightness : ℕ
  displays : List (Display G × Bool)
  num : ℕ

/-- Model of `APA102CPiDraw::new`: `num` is the sum of the attached displays' frame
lengths; every display starts unfinished. -/
def PiDraw.new {G : Type} (brightness : ℕ) (displays : List (Display G)) :
    PiDraw G :=
  ⟨brightness, displays.map fun d => (d, false), (displays.map fun d => d.frame.len).sum⟩

/-- The inner `for` loop of `APA102CPiDraw::run` over one tick: render each
unfinished display (matching `Continue`/`Last`/`Err`), then `write_frame`,
then check the SIGINT flag. Returns the updated display list, the updated
`num_finished` count, and whether the loop aborted (an `Err` return, a
generator panic unwinding, or the SIGINT check). -/
def tickDisplays {G : Type}
    (renderG : G → Frame → ℕ → Option (G × Frame × GeneratorState))
    (dt : ℕ) (sig : ℕ → Bool) :
    ℕ → ℕ → List (Display G × Bool) → List (Display G × Bool) × ℕ × Bool
  | _, nf, [] => ([], nf, false)
  | k, nf, (d, fin) :: rest =>
    let step : (Display G × Bool) × ℕ × Bool :=
      if fin then ((d, fin), nf, false)
      else
        match Display.renderFrame renderG d dt with
        | some (d2, .ok) => ((d2, false), nf, false)
        | some (d2, .done) => ((d2, true), nf + 1, false)
        | some (d2, .err) => ((d2, false), nf, true)
        | none => ((d, fin), nf, true)
    if step.2.2 then (step.1 :: rest, step.2.1, true)
    else if sig k then (step.1 :: rest, step.2.1, true)
    else
      let next := tickDisplays renderG dt sig (k + 1) step.2.1 rest
      (step.1 :: next.1, next.2)

/-- The `while num_finished < displays.len()` loop of `APA102CPiDraw::run`,
one tick per entry of `ticks`. -/
def runLoop {G : Type}
    (renderG : G → Frame → ℕ → Option (G × Frame × GeneratorState))
    (sig : ℕ → Bool) :
    List ℕ → ℕ → ℕ → List (Display G × Bool) → List (Display G × Bool)
  | [], _, _, ds => ds
  | dt :: ticks, k, nf, ds =>
    if nf < ds.length then
      let r := tickDisplays renderG dt sig k nf ds
      if r.2.2 then r.1
      else runLoop renderG sig ticks (k + ds.length) r.2.1 r.1
    else ds

/-- Model of `APA102CPiDraw::run` at the state level: only the displays (and their
finished flags) change. -/
def PiDraw.run {G : Type}
    (renderG : G → Frame → ℕ → Option (G × Frame × GeneratorState))
    (sig : ℕ → Bool) (ticks : List ℕ) (s : PiDraw G) : PiDraw G :=
  { s with displays := runLoop renderG sig ticks 0 0 s.displays }

/-- Model of `impl Drop for APA102CPiDraw`: the destructor calls `self.stop(self.num)`;
these are the bytes it clocks out. -/
def PiDraw.dropBytes {G : Type} (s : PiDraw G) : List ℕ :=
  stopBytes s.num

/-! ## Byte-stream helper lemmas -/

/-- Length of a flat-map whose groups all have length 4. -/
theorem flatMap4_length {α : Type} (f : α → List ℕ) (h4 : ∀ a, (f a).length = 4)
    (l : List α) : (l.flatMap f).length = 4 * l.length := by
  induction l with
  | nil => simp
  | cons a t ih =>
    simp only [List.flatMap_cons, List.length_append, ih, h4, List.length_cons]
    ring

/-- Extracting the `i`-th 4-byte group from a flat-map of 4-byte groups. -/
theorem flatMap4_extract {α : Type} (f : α → List ℕ) (h4 : ∀ a, (f a).length = 4)
    (l : List α) (i : ℕ) (hi : i < l.length) :
    ((l.flatMap f).drop (4 * i)).take 4 = f (l.get ⟨i, hi⟩) := by
  induction l generalizing i with
  | nil => simp at hi
  | cons a t ih =>
    cases i with
    | zero =>
      simp only [Nat.mul_zero, List.drop_zero, List.flatMap_cons, List.get]
      rw [List.take_append_eq_append_take, List.take_of_length_le (by rw [h4]),
        h4]
      simp
    | succ j =>
      have hj : j < t.length := by simpa using hi
      have h1 : 4 * Nat.succ j = (f a).length + 4 * j := by rw [h4]; omega
      simp only [List.flatMap_cons, List.get]
      rw [h1, List.drop_append_eq_append_drop]
      have h2 : (f a).length + 4 * j - (f a).length = 4 * j := by omega
      rw [List.drop_of_length_le (by omega), h2, List.nil_append]
      exact ih j hj

/-- The first four bytes of a start-framed stream. -/
theorem stream_take4 (mid post : List ℕ) :
    (startFrameBytes ++ mid ++ post).take 4 = [0, 0, 0, 0] := rfl

/-- Extracting the `i`-th pixel group from a full framed stream. -/
theorem stream_group_extract {α : Type} (f : α → List ℕ)
    (h4 : ∀ a, (f a).length = 4) (l : List α) (post : List ℕ) (i : ℕ)
    (hi : i < l.length) :
    ((startFrameBytes ++ l.flatMap f ++ post).drop (4 + 4 * i)).take 4
      = f (l.get ⟨i, hi⟩) := by
  have hdrop : (startFrameBytes ++ l.flatMap f ++ post).drop (4 + 4 * i)
      = (l.flatMap f ++ post).drop (4 * i) := by
    rw [List.append_assoc, List.drop_append_eq_append_drop]
    have h1 : startFrameBytes.length = 4 := rfl
    rw [List.drop_of_length_le (by rw [h1]; omega), h1]
    simp only [List.nil_append]
    congr 1
    omega
  rw [hdrop, List.drop_append_eq_append_drop, List.take_append_eq_append_take]
  have hlen : ((l.flatMap f).drop (4 * i)).length = 4 * l.length - 4 * i := by
    rw [List.length_drop, flatMap4_length f h4]
  have h0 : 4 - ((l.flatMap f).drop (4 * i)).length = 0 := by rw [hlen]; omega
  rw [h0, List.take_zero, List.append_nil]
  exact flatMap4_extract f h4 l i hi

/-- Bit facts about the control byte for an in-range hardware brightness. -/
theorem controlByte_split (hw : ℕ) (hhw : hw < 32) :
    (0xE0 ||| hw) / 32 = 7 ∧ (0xE0 ||| hw) % 32 = hw := by
  interval_cases hw <;> exact ⟨by decide, by decide⟩

/-! ## Claim C1 — hardware sink wire encoding -/

/-- Demo frame with a single red pixel at full software brightness. -/
def demoFrame1 : Frame := ⟨1, [⟨255, 0, 0⟩]⟩

/-- C1 (amended): `APA102CPiDraw::write_frame` for a frame of `N` pixels
clocks out exactly `4 + 4N + floor(N/16)` bytes (the source's `end_frame`
writes `len >> 4` zero trailer bytes, not `ceil(N/16)`): 4 zero start bytes;
then per pixel, in order, the control byte `0xE0 | hw` — top 3 bits `1`, low
5 bits the configured hardware brightness — followed by the blue, green and
red bytes of the pixel scaled by the frame's software brightness; and for
`N = 0` exactly the 4 start bytes. -/
theorem claim1_wire_encoding (hw : ℕ) (f : Frame) (hhw : hw < 32) :
    (writeFrameBytes hw f).length = 4 + 4 * f.len + f.len / 16
    ∧ (writeFrameBytes hw f).take 4 = [0, 0, 0, 0]
    ∧ (∀ i (hi : i < f.len),
        ((writeFrameBytes hw f).drop (4 + 4 * i)).take 4
          = [0xE0 ||| hw,
             ((f.leds.get ⟨i, hi⟩).scale f.brightness).blue,
             ((f.leds.get ⟨i, hi⟩).scale f.brightness).green,
             ((f.leds.get ⟨i, hi⟩).scale f.brightness).red]
        ∧ (0xE0 ||| hw) / 32 = 7 ∧ (0xE0 ||| hw) % 32 = hw)
    ∧ (f.len = 0 → writeFrameBytes hw f = [0, 0, 0, 0]) := by
  have h4 : ∀ p : RGB, (pixelGroup (0xE0 ||| hw) f.brightness p).length = 4 :=
    fun _ => rfl
  refine ⟨?_, ?_, ?_, ?_⟩
  · simp only [writeFrameBytes, List.length_append, flatMap4_length _ h4,
      startFrameBytes, endFrameBytes, List.length_replicate, Frame.len,
      Nat.shiftRight_eq_div_pow]
    norm_num
  · exact stream_take4 _ _
  · intro i hi
    refine ⟨?_, controlByte_split hw hhw⟩
    exact stream_group_extract _ h4 f.leds (endFrameBytes f.leds.length) i hi
  · intro h0
    have hleds : f.leds = [] := List.length_eq_zero.1 h0
    simp [writeFrameBytes, hleds, startFrameBytes, endFrameBytes]

/-- C1 counterexample to the claim as stated: a frame of `N = 1` pixel
produces `4 + 4 + 0 = 8` bytes, while the claimed total
`4 + 4N + ceil(N/16)` is `9`. -/
theorem claim1_wire_encoding_counterexample :
    (writeFrameBytes 1 demoFrame1).length = 8
    ∧ 4 + 4 * 1 + (1 + 15) / 16 = 9 := by
  constructor
  · norm_num [writeFrameBytes, pixelGroup, startFrameBytes, endFrameBytes,
      demoFrame1]
    decide
  · norm_num

/-- C1 witness: the amended encoding theorem applied at a concrete in-range
brightness and one-pixel frame. -/
theorem claim1_wire_encoding_witness :
    1 < 32
    ∧ (writeFrameBytes 1 demoFrame1).length = 4 + 4 * demoFrame1.len + demoFrame1.len / 16
    ∧ (writeFrameBytes 1 demoFrame1).take 4 = [0, 0, 0, 0] :=
  ⟨by norm_num, (claim1_wire_encoding 1 demoFrame1 (by norm_num)).1,
   (claim1_wire_encoding 1 demoFrame1 (by norm_num)).2.1⟩

/-! ## Claim C3 — destructor-time shutoff frame -/

/-- C3: for a sink built over any displays and any bounded execution of
`run` (any tick sequence and any SIGINT schedule, including
cancellation-triggered early returns), the destructor transmits
`stop(self.num)` where `num` is the sum of all attached displays' frame
lengths, and that byte stream is one full frame — start frame, `num` pixel
groups, trailer — whose every pixel group is the zero-brightness control byte
`0xE0` followed by three zero channel bytes. -/
theorem claim3_shutoff {G : Type}
    (renderG : G → Frame → ℕ → Option (G × Frame × GeneratorState))
    (sig : ℕ → Bool) (ticks : List ℕ) (hw : ℕ) (displays : List (Display G)) :
    (PiDraw.run renderG sig ticks (PiDraw.new hw displays)).num
        = (displays.map fun d => d.frame.len).sum
    ∧ PiDraw.dropBytes (PiDraw.run renderG sig ticks (PiDraw.new hw displays))
        = stopBytes ((displays.map fun d => d.frame.len).sum)
    ∧ (∀ n : ℕ,
        (stopBytes n).length = 4 + 4 * n + n / 16
        ∧ (stopBytes n).take 4 = [0, 0, 0, 0]
        ∧ ∀ i, i < n → ((stopBytes n).drop (4 + 4 * i)).take 4 = [0xE0, 0, 0, 0]) := by
  have hnum : (PiDraw.run renderG sig ticks (PiDraw.new hw displays)).num
      = (displays.map fun d => d.frame.len).sum := rfl
  refine ⟨hnum, by rw [PiDraw.dropBytes, hnum], ?_⟩
  intro n
  have h4 : ∀ k : ℕ, ((fun _ : ℕ => [0xE0, 0, 0, 0]) k).length = 4 := fun _ => rfl
  refine ⟨?_, stream_take4 _ _, ?_⟩
  · simp only [stopBytes, List.length_append, flatMap4_length _ h4,
      startFrameBytes, endFrameBytes, List.length_replicate, List.length_range,
      Nat.shiftRight_eq_div_pow]
    norm_num
  · intro i hi
    have hi2 : i < (List.range n).length := by simpa using hi
    exact stream_group_extract _ h4 (List.range n) (endFrameBytes n) i hi2

/-- Scripted generator double that always succeeds and leaves the frame
unchanged, for exercising `Display::render_frame`. -/
def renderOk {G : Type} : G → Frame → ℕ → Option (G × Frame × GeneratorState) :=
  fun g f _ => some (g, f, .ok)

/-- Demo two-pixel frame at full software brightness. -/
def demoFrame2 : Frame := ⟨1, [RGB.new, RGB.new]⟩

/-- C3 witness: the shutoff theorem applied to a concrete one-display sink
(two pixels) after a one-tick run, with the inner index hypothesis discharged
at pixel 0. -/
theorem claim3_shutoff_witness :
    (PiDraw.run (renderOk (G := Unit)) (fun _ => false) [5]
        (PiDraw.new 1 [⟨[], demoFrame2, false⟩])).num = 2
    ∧ (0 : ℕ) < 2
    ∧ ((stopBytes 2).drop (4 + 4 * 0)).take 4 = [0xE0, 0, 0, 0] :=
  ⟨by rw [(claim3_shutoff (renderOk (G := Unit)) (fun _ => false) [5] 1
      [⟨[], demoFrame2, false⟩]).1]; decide,
   by norm_num,
   ((claim3_shutoff (renderOk (G := Unit)) (fun _ => false) [5] 1
      [⟨[], demoFrame2, false⟩]).2.2 2).2.2 0 (by norm_num)⟩

/-! ## Claim C2 — dt-forwarding across a generator transition -/

/-- C2 (amended): when the front generator's `Time` runtime underflows, the
unused remainder of `dt` is *discarded* (the remainder-forwarding recursive
call is commented out in the source): a single
`render_frame(dt)` with `t1 < dt` on a non-looping display with queue
`[(g1, Time t1), (g2, Time t2)]` pops `g1` and leaves the second generator
untouched with its full `t2` remaining — not `t2 - (dt - t1)`. -/
theorem claim2_dt_forwarding_amended {G : Type}
    (renderG : G → Frame → ℕ → Option (G × Frame × GeneratorState))
    (g1 g2 : G) (t1 t2 dt : ℕ) (f : Frame) (g1b : G) (f2 : Frame)
    (hrender : renderG g1 f dt = some (g1b, f2, .ok))
    (hover : t1 < dt) :
    Display.renderFrame renderG ⟨[(g1, .time t1), (g2, .time t2)], f, false⟩ dt
      = some (⟨[(g2, .time t2)], f2, false⟩, .ok) := by
  have hnle : ¬ dt ≤ t1 := by omega
  simp [Display.renderFrame, renderQueue, hrender, hnle]

/-- C2 counterexample to the claim as stated: queue of two generators with
`T1 = 2`, `T2 = 2`; one call `render_frame(T1 + 0.5*T2) = render_frame(3)`
leaves the second generator with its full `Time 2` remaining, not the claimed
`0.5*T2 = Time 1`. -/
theorem claim2_dt_forwarding_counterexample :
    Display.renderFrame (renderOk (G := Unit))
        ⟨[((), .time 2), ((), .time 2)], demoFrame2, false⟩ 3
      = some (⟨[((), .time 2)], demoFrame2, false⟩, .ok)
    ∧ Runtime.time 2 ≠ Runtime.time 1 := by
  constructor
  · decide
  · decide

/-- C2 witness: the amended theorem applied at `t1 = 2`, `t2 = 2`, `dt = 3`
with both hypotheses discharged. -/
theorem claim2_dt_forwarding_witness :
    renderOk (G := Unit) () demoFrame2 3 = some ((), demoFrame2, .ok)
    ∧ 2 < 3
    ∧ Display.renderFrame (renderOk (G := Unit))
        ⟨[((), .time 2), ((), .time 2)], demoFrame2, false⟩ 3
      = some (⟨[((), .time 2)], demoFrame2, false⟩, .ok) :=
  ⟨rfl, by norm_num,
   claim2_dt_forwarding_amended (renderOk (G := Unit)) () () 2 2 3 demoFrame2
     () demoFrame2 rfl (by norm_num)⟩

/-! ## Claim C5 — looping push-back on runtime underflow -/

/-- C5 (amended): when the front generator's `Time t` runtime underflows on a
looping display, the popped pair is pushed to the back *unchanged*: the
runtime pushed is the stale pre-tick remaining `Time t` (not the original
configured duration — that is only restored by `Display::reset`), and the
generator is its post-render state with no reset applied. -/
theorem claim5_looping_requeue_amended {G : Type}
    (renderG : G → Frame → ℕ → Option (G × Frame × GeneratorState))
    (g : G) (t : ℕ) (rest : List (G × Runtime)) (f : Frame) (dt : ℕ)
    (g2 : G) (f2 : Frame)
    (hrender : renderG g f dt = some (g2, f2, .ok))
    (hover : t < dt) :
    Display.renderFrame renderG ⟨(g, .time t) :: rest, f, true⟩ dt
      = some (⟨rest ++ [(g2, .time t)], f2, true⟩, .ok) := by
  have hnle : ¬ dt ≤ t := by omega
  simp [Display.renderFrame, renderQueue, hrender, hnle]

/-- Cycle generator used in the C5 counterexample: period 100, palette
red/green/blue, freshly constructed (countdown 100). -/
def cyc5 : Cycle := ⟨[⟨255, 0, 0⟩, ⟨0, 255, 0⟩, ⟨0, 0, 255⟩], 0, ⟨255, 0, 0⟩, 100, 100⟩

/-- C5 counterexample to the claim as stated: a looping display whose Cycle
generator was configured with runtime `Time 10` and already ticked once with
`dt = 4` (leaving `Time 6`); on the next tick `dt = 8` the runtime underflows
and the pair pushed to the back is `(post-render generator, Time 6)` — the
runtime is not restored to the original `Time 10`, and the generator's
countdown is `88`, not the reset value `100`. -/
theorem claim5_looping_requeue_counterexample :
    Display.renderFrame Cycle.renderFrame ⟨[(cyc5, .time 10)], demoFrame2, true⟩ 4
      = some (⟨[({ cyc5 with cycleTimeRemaining := 96 }, .time 6)], demoFrame2, true⟩, .ok)
    ∧ Display.renderFrame Cycle.renderFrame
        ⟨[({ cyc5 with cycleTimeRemaining := 96 }, .time 6)], demoFrame2, true⟩ 8
      = some (⟨[({ cyc5 with cycleTimeRemaining := 88 }, .time 6)], demoFrame2, true⟩, .ok)
    ∧ Runtime.time 6 ≠ Runtime.time 10
    ∧ ({ cyc5 with cycleTimeRemaining := 88 } : Cycle) ≠ cyc5 := by
  refine ⟨by decide, by decide, by decide, by decide⟩

/-- C5 witness: the amended theorem applied at the counterexample's second
tick, hypotheses discharged concretely. -/
theorem claim5_looping_requeue_witness :
    Cycle.renderFrame { cyc5 with cycleTimeRemaining := 96 } demoFrame2 8
      = some ({ cyc5 with cycleTimeRemaining := 88 }, demoFrame2, .ok)
    ∧ 6 < 8
    ∧ Display.renderFrame Cycle.renderFrame
        ⟨[({ cyc5 with cycleTimeRemaining := 96 }, .time 6)], demoFrame2, true⟩ 8
      = some (⟨[({ cyc5 with cycleTimeRemaining := 88 }, .time 6)], demoFrame2, true⟩, .ok) :=
  ⟨by decide, by norm_num,
   claim5_looping_requeue_amended Cycle.renderFrame
     { cyc5 with cycleTimeRemaining := 96 } 6 [] demoFrame2 8
     { cyc5 with cycleTimeRemaining := 88 } demoFrame2 (by decide) (by norm_num)⟩

/-! ## Claim C10 — ErrRetry drops the erroring generator before the retry -/

/-- C10: when the front generator returns `ErrRetry`, it was popped at entry
and is not pushed back: the same-tick retry runs `render_frame` on the rest
of the queue (with the frame as the erroring generator left it), so the
retry is served by the next generator, and if the queue is now empty the
call returns `Done`. -/
theorem claim10_errretry_drops_generator {G : Type}
    (renderG : G → Frame → ℕ → Option (G × Frame × GeneratorState))
    (g : G) (rt : Runtime) (rest : List (G × Runtime)) (f : Frame)
    (looping : Bool) (dt : ℕ) (g2 : G) (f2 : Frame)
    (hrender : renderG g f dt = some (g2, f2, .errRetry)) :
    Display.renderFrame renderG ⟨(g, rt) :: rest, f, looping⟩ dt
      = Display.renderFrame renderG ⟨rest, f2, looping⟩ dt
    ∧ (rest = [] →
        Display.renderFrame renderG ⟨(g, rt) :: rest, f, looping⟩ dt
          = some (⟨[], f2, looping⟩, .done)) := by
  have hstep : renderQueue renderG looping dt ((g, rt) :: rest) f
      = renderQueue renderG looping dt rest f2 := by
    simp [renderQueue, hrender]
  constructor
  · simp [Display.renderFrame, hstep]
  · intro hrest
    subst hrest
    simp only [Display.renderFrame, hstep]
    rfl

/-- Scripted generator double for the C10 witness: generator `true` fails
with `ErrRetry`, generator `false` succeeds. -/
def renderRetryScript : Bool → Frame → ℕ → Option (Bool × Frame × GeneratorState) :=
  fun b f _ => some (b, f, if b then .errRetry else .ok)

/-- C10 witness: the theorem applied to a queue whose front generator
(`true`) errors with `ErrRetry`; the retry is served by the second generator
(`false`), which then continues normally. -/
theorem claim10_errretry_witness :
    renderRetryScript true demoFrame2 7 = some (true, demoFrame2, .errRetry)
    ∧ Display.renderFrame renderRetryScript
        ⟨[(true, .time 3), (false, .time 9)], demoFrame2, false⟩ 7
      = Display.renderFrame renderRetryScript
        ⟨[(false, .time 9)], demoFrame2, false⟩ 7
    ∧ Display.renderFrame renderRetryScript
        ⟨[(false, .time 9)], demoFrame2, false⟩ 7
      = some (⟨[(false, .time 2)], demoFrame2, false⟩, .ok) :=
  ⟨rfl,
   (claim10_errretry_drops_generator renderRetryScript true (.time 3)
     [(false, .time 9)] demoFrame2 false 7 true demoFrame2 rfl).1,
   by decide⟩

/-! ## Claim C9 — Cycle end-to-end scenario -/

/-- Freshly constructed Cycle generator with `cycle_period = 1000` (one
tick-unit) and the ordered palette red, green, blue. -/
def cyc9 : Cycle := ⟨[⟨255, 0, 0⟩, ⟨0, 255, 0⟩, ⟨0, 0, 255⟩], 0, ⟨255, 0, 0⟩, 1000, 1000⟩

/-- Three-pixel frame of a solid color at full software brightness. -/
def solid3 (c : RGB) : Frame := ⟨1, [c, c, c]⟩

/-- State of `cyc9` after its first tick of one full period: countdown zero,
still on the first palette color, frame untouched. -/
def cyc9b : Cycle := { cyc9 with cycleTimeRemaining := 0 }

/-- State of `cyc9` after its second tick: switched to the second palette
color (green), countdown refilled to zero. -/
def cyc9c : Cycle := ⟨cyc9.order, 1, ⟨0, 255, 0⟩, 1000, 0⟩

/-- C9 (amended): a non-looping display holding one `cyc9` Cycle generator
(runtime `Time 2500`, i.e. 2.5 periods) driven by three ticks of
`dt = period = 1000` renders: after the first tick the frame is *unchanged*
(still the initial black — `Cycle::render_frame` only writes the frame on a
color switch, so the first palette color red is never displayed), after the
second all green, after the third all blue (and the generator is popped);
a fourth call with any `dt` reports `Done`. -/
theorem claim9_cycle_scenario_amended :
    Display.renderFrame Cycle.renderFrame
        ⟨[(cyc9, .time 2500)], solid3 RGB.new, false⟩ 1000
      = some (⟨[(cyc9b, .time 1500)], solid3 RGB.new, false⟩, .ok)
    ∧ Display.renderFrame Cycle.renderFrame
        ⟨[(cyc9b, .time 1500)], solid3 RGB.new, false⟩ 1000
      = some (⟨[(cyc9c, .time 500)], solid3 ⟨0, 255, 0⟩, false⟩, .ok)
    ∧ Display.renderFrame Cycle.renderFrame
        ⟨[(cyc9c, .time 500)], solid3 ⟨0, 255, 0⟩, false⟩ 1000
      = some (⟨[], solid3 ⟨0, 0, 255⟩, false⟩, .ok)
    ∧ ∀ dt4 : ℕ,
        Display.renderFrame Cycle.renderFrame ⟨[], solid3 ⟨0, 0, 255⟩, false⟩ dt4
          = some (⟨[], solid3 ⟨0, 0, 255⟩, false⟩, .done) :=
  ⟨by decide, by decide, by decide, fun _ => rfl⟩

/-- C9 counterexample to the claim as stated: after the first tick the
frame's pixels are still the initial black, not the claimed all-red. -/
theorem claim9_cycle_scenario_counterexample :
    (Display.renderFrame Cycle.renderFrame
        ⟨[(cyc9, .time 2500)], solid3 RGB.new, false⟩ 1000).map
        (fun x => x.1.frame.leds)
      = some [RGB.new, RGB.new, RGB.new]
    ∧ RGB.new ≠ ⟨255, 0, 0⟩ := by
  exact ⟨by decide, by decide⟩

/-! ## Claim C7 — Cycle tick-size invariance -/

/-- Evaluation of `Cycle::render_frame` on a tick that does not exhaust the
countdown. -/
theorem cycle_render_no_switch (c : Cycle) (f : Frame) (dt : ℕ)
    (h : dt ≤ c.cycleTimeRemaining) :
    Cycle.renderFrame c f dt
      = some ({ c with cycleTimeRemaining := c.cycleTimeRemaining - dt }, f, .ok) := by
  unfold Cycle.renderFrame
  rw [if_pos h]

/-- Evaluation of `Cycle::render_frame` on a tick that exhausts the countdown
but stays within one refill (no panic). -/
theorem cycle_render_switch (c : Cycle) (f : Frame) (dt : ℕ) (co : RGB)
    (hco : c.order.get? ((c.ind + 1) % c.order.length) = some co)
    (h1 : c.cycleTimeRemaining < dt)
    (h2 : dt ≤ c.cyclePeriod + c.cycleTimeRemaining) :
    Cycle.renderFrame c f dt
      = some (⟨c.order, (c.ind + 1) % c.order.length, co, c.cyclePeriod,
               c.cyclePeriod + c.cycleTimeRemaining - dt⟩,
              { f with leds := f.leds.map fun _ => co }, .ok) := by
  have hnle : ¬ dt ≤ c.cycleTimeRemaining := by omega
  simp only [Cycle.renderFrame, if_neg hnle, hco, if_pos h2]

/-- C7 (amended): Cycle color-switch timing is tick-size invariant as long as
each call's `dt` stays within `cycle_time_remaining + cycle_period` (at most
one switch): splitting such a duration into two ticks yields exactly the same
state, frame and countdown as one combined tick. (Beyond that bound a single
large tick advances the palette only once and the refill
`cycle_period + cycle_time_remaining - dt` panics — see the
counterexample.) -/
theorem claim7_cycle_ticksize_amended (c : Cycle) (f : Frame) (d1 d2 : ℕ)
    (hne : c.order ≠ [])
    (hbound : d1 + d2 ≤ c.cycleTimeRemaining + c.cyclePeriod) :
    (Cycle.renderFrame c f d1).bind (fun x => Cycle.renderFrame x.1 x.2.1 d2)
      = Cycle.renderFrame c f (d1 + d2) := by
  have hL : 0 < c.order.length := List.length_pos.2 hne
  have hmod : (c.ind + 1) % c.order.length < c.order.length := Nat.mod_lt _ hL
  obtain ⟨co, hco⟩ : ∃ co, c.order.get? ((c.ind + 1) % c.order.length) = some co :=
    ⟨_, List.get?_eq_get hmod⟩
  by_cases h1 : d1 ≤ c.cycleTimeRemaining
  · by_cases h12 : d1 + d2 ≤ c.cycleTimeRemaining
    · rw [cycle_render_no_switch c f d1 h1, Option.some_bind]
      show Cycle.renderFrame { c with cycleTimeRemaining := c.cycleTimeRemaining - d1 } f d2 = _
      rw [cycle_render_no_switch { c with cycleTimeRemaining := c.cycleTimeRemaining - d1 }
          f d2 (by simp; omega),
        cycle_render_no_switch c f (d1 + d2) h12]
      simp only [Option.some.injEq, Prod.mk.injEq, Cycle.mk.injEq, true_and,
        and_true]
      omega
    · rw [cycle_render_no_switch c f d1 h1, Option.some_bind]
      show Cycle.renderFrame { c with cycleTimeRemaining := c.cycleTimeRemaining - d1 } f d2 = _
      rw [cycle_render_switch { c with cycleTimeRemaining := c.cycleTimeRemaining - d1 }
          f d2 co hco (by simp; omega) (by simp; omega),
        cycle_render_switch c f (d1 + d2) co hco (by omega) (by omega)]
      simp only [Option.some.injEq, Prod.mk.injEq, Cycle.mk.injEq, true_and,
        and_true]
      omega
  · have h1le : d1 ≤ c.cyclePeriod + c.cycleTimeRemaining := by omega
    rw [cycle_render_switch c f d1 co hco (by omega) h1le, Option.some_bind]
    show Cycle.renderFrame
        ⟨c.order, (c.ind + 1) % c.order.length, co, c.cyclePeriod,
         c.cyclePeriod + c.cycleTimeRemaining - d1⟩
        { f with leds := f.leds.map fun _ => co } d2 = _
    rw [cycle_render_no_switch
        ⟨c.order, (c.ind + 1) % c.order.length, co, c.cyclePeriod,
         c.cyclePeriod + c.cycleTimeRemaining - d1⟩
        { f with leds := f.leds.map fun _ => co } d2 (by simp; omega),
      cycle_render_switch c f (d1 + d2) co hco (by omega) (by omega)]
    simp only [Option.some.injEq, Prod.mk.injEq, Cycle.mk.injEq, true_and,
      and_true]
    omega

/-- Freshly constructed Cycle generator with period 2 for the C7
counterexample. -/
def cyc7 : Cycle := ⟨[⟨255, 0, 0⟩, ⟨0, 255, 0⟩, ⟨0, 0, 255⟩], 0, ⟨255, 0, 0⟩, 2, 2⟩

/-- C7 counterexample to the claim as stated: three small ticks of `dt = 2`
drive `cyc7` through two color switches (palette index 2), while the single
equivalent large tick `dt = 6` panics — the refill
`cycle_period + cycle_time_remaining - dt` underflows the `Duration`
subtraction — so the small-tick and large-tick runs do not produce the same
switch points. -/
theorem claim7_cycle_ticksize_counterexample :
    ((Cycle.renderFrame cyc7 demoFrame1 2).bind fun x =>
        (Cycle.renderFrame x.1 x.2.1 2).bind fun y =>
          Cycle.renderFrame y.1 y.2.1 2).map (fun z => z.1.ind) = some 2
    ∧ Cycle.renderFrame cyc7 demoFrame1 6 = none := by
  exact ⟨by decide, by decide⟩

/-- C7 witness: the amended equivalence applied to `cyc7` with two ticks of 2
against one tick of 4 (within one refill), hypotheses discharged. -/
theorem claim7_cycle_ticksize_witness :
    cyc7.order ≠ []
    ∧ 2 + 2 ≤ cyc7.cycleTimeRemaining + cyc7.cyclePeriod
    ∧ ((Cycle.renderFrame cyc7 demoFrame1 2).bind fun x =>
          Cycle.renderFrame x.1 x.2.1 2)
        = Cycle.renderFrame cyc7 demoFrame1 (2 + 2) :=
  ⟨by decide, by decide,
   claim7_cycle_ticksize_amended cyc7 demoFrame1 2 2 (by decide) (by decide)⟩

/-! ## Claim C6 — Rainbow hue wrap invariant -/

/-- Evaluation of the hue field after one `Rainbow::render_frame` tick: the
advanced hue is wrapped by a single conditional subtraction of 360. -/
theorem rainbow_render_hue (r : Rainbow) (f : Frame) (dt : ℕ) :
    ((r.renderFrame f dt).1).hue
      = if 360 ≤ r.hue + r.dh * nanosToSecs dt
        then r.hue + r.dh * nanosToSecs dt - 360
        else r.hue + r.dh * nanosToSecs dt := by
  simp only [Rainbow.renderFrame]
  split_ifs <;> rfl

/-- C6 (amended): the hue invariant `0 ≤ hue < 360` is preserved by a tick
whenever that tick advances the hue by at most one full turn
(`dh * dt ≤ 360`); the single conditional subtraction in the source cannot
wrap a larger advance (see the counterexample). -/
theorem claim6_rainbow_hue_amended (r : Rainbow) (f : Frame) (dt : ℕ)
    (h0 : 0 ≤ r.hue) (h360 : r.hue < 360) (hdh : 0 ≤ r.dh)
    (hstep : r.dh * nanosToSecs dt ≤ 360) :
    0 ≤ ((r.renderFrame f dt).1).hue ∧ ((r.renderFrame f dt).1).hue < 360 := by
  have hsecs : (0 : ℚ) ≤ nanosToSecs dt := by
    unfold nanosToSecs; positivity
  have hmul : 0 ≤ r.dh * nanosToSecs dt := mul_nonneg hdh hsecs
  rw [rainbow_render_hue]
  split_ifs with hwrap
  · constructor <;> linarith
  · constructor <;> linarith

/-- C6 counterexample to the claim as stated: a Rainbow with
`dh = 360` (one-second rainbow period) starting at the post-construction hue
`0` and ticked once with `dt = 2` seconds (two full periods,
`dh * dt = 720 ≥ 720`) ends with `hue = 360`, outside `[0, 360)`. -/
theorem claim6_rainbow_hue_counterexample :
    (((Rainbow.new 4000000000 360 1 1 1 1).renderFrame (Frame.new 1 0)
        2000000000).1).hue = 360
    ∧ ¬ ((360 : ℚ) < 360) := by
  constructor
  · norm_num [Rainbow.renderFrame, Rainbow.new, nanosToSecs, Frame.new]
  · norm_num

/-- C6 witness: the amended invariant applied to a concrete Rainbow
(`dh = 360`) ticked by exactly one period, hypotheses discharged. -/
theorem claim6_rainbow_hue_witness :
    (0 : ℚ) ≤ (Rainbow.new 1000000000 360 1 1 1 1).hue
    ∧ (Rainbow.new 1000000000 360 1 1 1 1).hue < 360
    ∧ (0 : ℚ) ≤ (Rainbow.new 1000000000 360 1 1 1 1).dh
    ∧ (Rainbow.new 1000000000 360 1 1 1 1).dh * nanosToSecs 1000000000 ≤ 360
    ∧ 0 ≤ (((Rainbow.new 1000000000 360 1 1 1 1).renderFrame (Frame.new 1 0)
        1000000000).1).hue
    ∧ (((Rainbow.new 1000000000 360 1 1 1 1).renderFrame (Frame.new 1 0)
        1000000000).1).hue < 360 := by
  have h1 : (0 : ℚ) ≤ (Rainbow.new 1000000000 360 1 1 1 1).hue := by
    norm_num [Rainbow.new]
  have h2 : (Rainbow.new 1000000000 360 1 1 1 1).hue < 360 := by
    norm_num [Rainbow.new]
  have h3 : (0 : ℚ) ≤ (Rainbow.new 1000000000 360 1 1 1 1).dh := by
    norm_num [Rainbow.new]
  have h4 : (Rainbow.new 1000000000 360 1 1 1 1).dh * nanosToSecs 1000000000 ≤ 360 := by
    norm_num [Rainbow.new, nanosToSecs]
  obtain ⟨ha, hb⟩ := claim6_rainbow_hue_amended (Rainbow.new 1000000000 360 1 1 1 1)
    (Frame.new 1 0) 1000000000 h1 h2 h3 h4
  exact ⟨h1, h2, h3, h4, ha, hb⟩

/-! ## Claim C8 — Breath reset does not restore `pos` -/

/-- Post-construction state of the animation Breath used in C8: runtime 1 s,
`breath_duration` 1 s (so `acc = -8`, `vel0 = 4`), one-color palette. -/
def b8 : AnimBreath :=
  ⟨1000000000, 1000000000, [⟨255, 0, 0⟩], 0, ⟨255, 0, 0⟩, -8, 4, 4, 0⟩

/-- C8 (code bug): `Breath::reset` restores `time_remaining`, the palette
index, the current color and `vel`, but omits `pos`; after one
quarter-second tick (`pos = 1/2`) a reset leaves the generator at
`{post-construction with pos = 1/2}`, not the post-construction state with
`pos = 0` that the spec (and the trait's own documentation) require. -/
theorem claim8_breath_reset_incomplete :
    AnimBreath.new 1000000000 1 [⟨255, 0, 0⟩] = some b8
    ∧ b8.pos = 0
    ∧ ((b8.renderFrame (Frame.new 1 1) 250000000).bind fun x => x.1.reset)
        = some { b8 with pos := 1/2 }
    ∧ ((1 : ℚ)/2) ≠ 0 := by
  refine ⟨?_, rfl, ?_, by norm_num⟩
  · norm_num [AnimBreath.new, b8]
  · norm_num [AnimBreath.renderFrame, AnimBreath.reset, nanosToSecs,
      Frame.new, b8]

/-! ## Claim C4 — filters never write the frame -/

/-- C4 (code bug): both filters' `filter_frame` leave the frame exactly as it
was for every state, frame and `dt` — the loop bodies call `RGB::scale`,
which takes `&self` and returns the scaled pixel by value, and discard the
result. Concretely, a Breath filter with a half-advanced envelope
(`pos = 1/2`) leaves a white pixel at `(255, 255, 255)` instead of scaling
it. -/
theorem claim4_filters_never_write_frame :
    (∀ (b : FilterBreath) (f : Frame) (dt : ℕ), (b.filterFrame f dt).2.1 = f)
    ∧ (∀ (s : FilterStrobe) (f : Frame) (dt : ℕ), (s.filterFrame f dt).2.1 = f)
    ∧ (FilterBreath.new 2).filterFrame ⟨1, [⟨255, 255, 255⟩]⟩ 500000000
        = (⟨-2, 1, 2, 1/2⟩, ⟨1, [⟨255, 255, 255⟩]⟩, .ok) := by
  refine ⟨?_, fun s f dt => rfl, ?_⟩
  · intro b f dt
    simp only [FilterBreath.filterFrame]
    split_ifs <;> rfl
  · norm_num [FilterBreath.new, FilterBreath.filterFrame, nanosToSecs]

end RanOS
